import Mathlib

/-!
Shallow embedding of the book-catalog service (`server/cmd/main.go`) and of
the nginx method-router configuration, for checking the design document
against the code.

The MongoDB collection is modelled as a list of persisted records; the
driver primitives (`FindOne`, `InsertOne`, `UpdateOne`, `DeleteOne`) are
modelled by their single-document semantics on that list.  Whether the
underlying write of an insert succeeds is an environmental input
(`writeOk`), as is the fresh identifier the store would assign
(`freshId`).
-/

set_option autoImplicit false

namespace CloudExercise

/-! ### Identifiers: `primitive.ObjectID` and its hex codec

An ObjectID is 12 bytes; its wire form is a 24-character hex string.  We
represent the identifier by its 24 hex-digit values (base-16 digits), which
is in bijection with the 12-byte form.  `primitive.ObjectIDFromHex` requires
length 24 and accepts both upper- and lower-case digits (Go `encoding/hex`);
`ObjectID.Hex` renders lower-case.  On a decode error the Go call returns
the zero ObjectID (`primitive.NilObjectID`) together with the error.
-/

abbrev ObjectID := List Nat

def nilObjectID : ObjectID := List.replicate 24 0

/-- Value of one hex digit, accepting `0-9`, `a-f` and `A-F` like Go's
`encoding/hex`. -/
def hexDigitVal (c : Char) : Option Nat :=
  if '0' ≤ c ∧ c ≤ '9' then some (c.toNat - '0'.toNat)
  else if 'a' ≤ c ∧ c ≤ 'f' then some (c.toNat - 'a'.toNat + 10)
  else if 'A' ≤ c ∧ c ≤ 'F' then some (c.toNat - 'A'.toNat + 10)
  else none

/-- Lower-case hex digit for a value `< 16`, as produced by `ObjectID.Hex`. -/
def hexDigitChar (n : Nat) : Char :=
  if n < 10 then Char.ofNat ('0'.toNat + n) else Char.ofNat ('a'.toNat + (n - 10))

/-- Digit-wise hex decoding (`encoding/hex.DecodeString`): fails on the
first non-hex character. -/
def hexDigitVals : List Char → Option (List Nat)
  | [] => some []
  | c :: cs =>
    match hexDigitVal c, hexDigitVals cs with
    | some n, some ns => some (n :: ns)
    | _, _ => none

/-- Model of `primitive.ObjectIDFromHex`: length must be 24 and every character a hex
digit; `none` models the error return (in which case the Go value result is
`NilObjectID`). -/
def objectIDFromHex (s : String) : Option ObjectID :=
  if s.length = 24 then hexDigitVals s.data else none

/-- Model of `ObjectID.Hex`: lower-case hex rendering. -/
def objectIDHex (id : ObjectID) : String :=
  ⟨id.map hexDigitChar⟩

/-! ### Record shapes -/

/-- Wire form (`Book` in `main.go`): JSON fields `id, name, author, isbn,
pages, year`. -/
structure Book where
  id : String
  name : String
  author : String
  isbn : String
  pages : Int
  year : Int
  deriving DecidableEq, Repr

/-- Persisted form (`BookStore` in `main.go`): bson `_id,omitempty` plus the
five descriptive fields. -/
structure BookStore where
  ID : ObjectID
  BookName : String
  BookAuthor : String
  BookISBN : String
  BookPages : Int
  BookYear : Int
  deriving DecidableEq, Repr

/-- Model of `convertToBookstore`: zero-value record, then the identifier is assigned
from the hex decode when the wire identifier is non-empty (decode failure
leaves the zero identifier, the error is discarded), and the five
descriptive fields are copied. -/
def convertToBookstore (book : Book) : BookStore :=
  { ID := if book.id ≠ "" then (objectIDFromHex book.id).getD nilObjectID
          else nilObjectID
    BookName := book.name
    BookAuthor := book.author
    BookISBN := book.isbn
    BookPages := book.pages
    BookYear := book.year }

/-! ### Store model and adapter operations -/

/-- The MongoDB collection: a list of persisted records, store order. -/
abbrev Store := List BookStore

/-- The five-descriptive-field equality filter of `checkIfDuplicateExists`
(`bookname`, `bookauthor`, `bookisbn`, `bookpages`, `bookyear`). -/
def matchesFiveFields (book r : BookStore) : Bool :=
  r.BookName == book.BookName && r.BookAuthor == book.BookAuthor &&
    r.BookISBN == book.BookISBN && r.BookPages == book.BookPages &&
    r.BookYear == book.BookYear

/-- Model of `checkIfDuplicateExists`: one `FindOne` with the five-field filter;
`res.Err() == nil` exactly when some document matched. -/
def checkIfDuplicateExists (coll : Store) (book : BookStore) : Bool :=
  (coll.find? (matchesFiveFields book)).isSome

/-- Model of `InsertOne` semantics with the `_id,omitempty` bson tag: a zero
identifier is omitted and the store assigns `freshId`; a non-zero
identifier on the document is used as the `_id`.  Returns the new store
and the `InsertedID`. -/
def insertOne (coll : Store) (freshId : ObjectID) (b : BookStore) :
    Store × ObjectID :=
  let actualId := if b.ID = nilObjectID then freshId else b.ID
  (coll ++ [{ b with ID := actualId }], actualId)

/-- Model of `saveBook`: `InsertOne`; on a write error it returns `nil` (modelled
`none`) and the store is unchanged; on success the singleton
`{ID: res.InsertedID}` payload (modelled `some id`). -/
def saveBook (coll : Store) (writeOk : Bool) (freshId : ObjectID)
    (newBook : BookStore) : Store × Option ObjectID :=
  if writeOk then
    let (coll', insertedId) := insertOne coll freshId newBook
    (coll', some insertedId)
  else (coll, none)

/-- The `$set` of the five descriptive fields onto a stored record, keeping its
`_id`. -/
def setFields (b r : BookStore) : BookStore :=
  { r with BookName := b.BookName, BookAuthor := b.BookAuthor,
           BookISBN := b.BookISBN, BookPages := b.BookPages,
           BookYear := b.BookYear }

/-- Model of `updateBook`: `UpdateOne` with filter `_id = updatedBook.ID` and a
`$set` of the five fields — at most the first matching document is
modified; no match is a silent no-op. -/
def updateBook : Store → BookStore → Store
  | [], _ => []
  | r :: rest, b =>
    if r.ID = b.ID then setFields b r :: rest else r :: updateBook rest b

/-- Model of `deleteBook`: `DeleteOne` with filter `_id = id` — at most the first
matching document is removed; no match is a silent no-op. -/
def deleteBook : Store → ObjectID → Store
  | [], _ => []
  | r :: rest, id => if r.ID = id then rest else r :: deleteBook rest id

/-- Per-record shape of the `GET /api/books` response (`getAllBooks`):
identifier rendered with `ID.Hex()`, five descriptive fields under their
wire names. -/
def bookOfStored (r : BookStore) : Book :=
  { id := objectIDHex r.ID
    name := r.BookName
    author := r.BookAuthor
    isbn := r.BookISBN
    pages := r.BookPages
    year := r.BookYear }

/-- Model of `getAllBooks`: find-all then per-record wire conversion. -/
def getAllBooks (coll : Store) : List Book :=
  coll.map bookOfStored

/-! ### HTTP handlers -/

/-- Response bodies the `/api/books` handlers produce: a JSON string
message, or the `saveBook` payload (`none` is the `nil` slice rendered as
JSON `null`). -/
inductive HttpBody where
  | text (s : String)
  | idPayload (r : Option ObjectID)
  deriving DecidableEq, Repr

/-- Handler for `POST /api/books`: convert, duplicate guard (304 on duplicate, no
write), otherwise `saveBook` and a 200 with its payload. -/
def postBooks (coll : Store) (writeOk : Bool) (freshId : ObjectID)
    (book : Book) : Store × Nat × HttpBody :=
  let toPost := convertToBookstore book
  if checkIfDuplicateExists coll toPost then
    (coll, 304, .text "Duplicate not allowed")
  else
    let (coll', res) := saveBook coll writeOk freshId toPost
    (coll', 200, .idPayload res)

/-- Handler for `PUT /api/books`: convert, duplicate guard on the new field values (201
on duplicate, no write), otherwise `updateBook` and a 200 confirmation. -/
def putBooks (coll : Store) (book : Book) : Store × Nat × HttpBody :=
  let toUpdate := convertToBookstore book
  if checkIfDuplicateExists coll toUpdate then
    (coll, 201, .text "Duplicate not allowed")
  else
    (updateBook coll toUpdate, 200, .text "Updated the book")

/-- Handler for `DELETE /api/books/:id`: decode the path parameter, discarding the
error (the Go value result of a failed decode is the zero ObjectID), delete
by `_id`, respond 200 unconditionally. -/
def deleteBooksId (coll : Store) (idParam : String) : Store × Nat × HttpBody :=
  let objectId := (objectIDFromHex idParam).getD nilObjectID
  (deleteBook coll objectId, 200, .text "Succesfully deleted entry")

/-! ### Method router (nginx configuration)

`location /` and `location /api` are nginx prefix locations; the longer
prefix wins, so any path starting with `/api` reaches the `/api` block and
every other path reaches `location /`, which proxies to the `backend`
("full") upstream.  Inside the `/api` block an `if`-chain on
`$request_method` selects one of the four verb upstreams; a method that
matches none of the four `if`s leaves the block with no `proxy_pass`
(modelled `none`). -/

inductive Method where
  | GET | POST | PUT | DELETE
  | other (s : String)
  deriving DecidableEq, Repr

inductive Pool where
  | backend | get | post | put | delete
  deriving DecidableEq, Repr

/-- nginx prefix-location match for `/api`. -/
def underApi (path : String) : Bool :=
  "/api".data.isPrefixOf path.data

/-- The routing the nginx server block performs. -/
def nginxRoute (m : Method) (path : String) : Option Pool :=
  if underApi path then
    match m with
    | .GET => some .get
    | .POST => some .post
    | .PUT => some .put
    | .DELETE => some .delete
    | .other _ => none
  else some .backend

/-! ### Collection bootstrap (`prepareDatabase`) and startup

`prepareDatabase` lists the collection names; a listing error is returned
to the caller.  If the collection name is missing it runs a `create`
command; a create error hits `log.Fatal`, which terminates the process.
`main` discards the returned error: on a listing failure it proceeds with a
`nil` collection pointer, and the very next step, `prepareData`, calls
`coll.Find` on that `nil` pointer, which panics — so the process still
never reaches the serving state. -/

/-- Outcome of `prepareDatabase`.  `createIssued` records whether a
`create` command was run. -/
inductive PrepResult where
  /-- Returned `(coll, nil)`. -/
  | ok (createIssued : Bool) (coll : String)
  /-- Case `log.Fatal` inside the create branch: process terminated (a create
  was issued and failed). -/
  | fatalExit
  /-- Returned `(nil, err)` from the listing failure. -/
  | err (e : String)
  deriving DecidableEq, Repr

/-- Model of `prepareDatabase client dbName collecName` as a function of the result
of `ListCollectionNames` and of whether the `create` command succeeds. -/
def prepareDatabase (listResult : Except String (List String))
    (createOk : Bool) (collecName : String) : PrepResult :=
  match listResult with
  | .error e => .err e
  | .ok names =>
    if names.contains collecName then .ok false collecName
    else if createOk then .ok true collecName
    else .fatalExit

/-- Whether `prepareDatabase` issued a `create` command. -/
def PrepResult.createIssuedB : PrepResult → Bool
  | .ok b _ => b
  | .fatalExit => true
  | .err _ => false

/-- How far `main` gets after `prepareDatabase`. -/
inductive StartupOutcome where
  /-- Reached the serving state with this collection. -/
  | started (coll : String)
  /-- Process died before serving. -/
  | crashed (reason : String)
  deriving DecidableEq, Repr

/-- The `main` startup path around `prepareDatabase`: the returned error is
discarded, but a `nil` collection makes `prepareData`'s `coll.Find` panic;
`log.Fatal` in the create branch has already terminated the process. -/
def mainStartup (listResult : Except String (List String))
    (createOk : Bool) (collecName : String) : StartupOutcome :=
  match prepareDatabase listResult createOk collecName with
  | .ok _ coll => .started coll
  | .fatalExit => .crashed "log.Fatal in prepareDatabase"
  | .err _ => .crashed "nil collection panic in prepareData"

/-! ### Concrete sample data for witnesses and counterexamples -/

/-- Lower-case hex digit predicate (the characters on which Go's hex decode
and `ObjectID.Hex` are mutually inverse). -/
def isLowerHexDigit (c : Char) : Bool :=
  decide (('0' ≤ c ∧ c ≤ '9') ∨ ('a' ≤ c ∧ c ≤ 'f'))

/-- A wire record carrying a valid client-chosen hex identifier. -/
def clientIdBook : Book :=
  { id := "0102030405060708090a0b0c", name := "Dune", author := "Frank Herbert",
    isbn := "0-441-17271-7", pages := 412, year := 1965 }

/-- A wire record with no identifier. -/
def noIdBook : Book :=
  { id := "", name := "Frankenstein", author := "Mary Shelley",
    isbn := "978-3-649-64609-9", pages := 280, year := 1818 }

/-- Another wire record with no identifier. -/
def duneBook : Book :=
  { id := "", name := "Dune Messiah", author := "Frank Herbert",
    isbn := "0-399-12521-4", pages := 256, year := 1969 }

/-- A third wire record with no identifier. -/
def blackCatBook : Book :=
  { id := "", name := "The Black Cat", author := "Edgar Allan Poe",
    isbn := "978-3-99168-238-7", pages := 280, year := 1843 }

/-- A wire record whose identifier is valid hex written upper-case. -/
def upperIdBook : Book :=
  { id := "AAAAAAAAAAAAAAAAAAAAAAAA", name := "The Vortex",
    author := "Jose Eustasio Rivera", isbn := "958-30-0804-4",
    pages := 292, year := 1924 }

/-- A wire record whose identifier is valid lower-case hex. -/
def lowerIdBook : Book :=
  { id := "0123456789abcdef01234567", name := "The Vortex",
    author := "Jose Eustasio Rivera", isbn := "958-30-0804-4",
    pages := 292, year := 1924 }

/-- A persisted record with a non-zero identifier. -/
def storedFrank : BookStore :=
  { ID := List.replicate 24 1, BookName := "Frankenstein",
    BookAuthor := "Mary Shelley", BookISBN := "978-3-649-64609-9",
    BookPages := 280, BookYear := 1818 }

/-- A persisted copy of `duneBook`'s five fields. -/
def storedDune : BookStore :=
  { ID := List.replicate 24 2, BookName := "Dune Messiah",
    BookAuthor := "Frank Herbert", BookISBN := "0-399-12521-4",
    BookPages := 256, BookYear := 1969 }

/-- A PUT body with an undecodable identifier and fresh field values. -/
def invalidIdNewBook : Book :=
  { id := "zz", name := "New Title", author := "New Author", isbn := "111",
    pages := 7, year := 2000 }

/-- A PUT body with an undecodable identifier whose five fields duplicate
`storedFrank`. -/
def invalidIdDupBook : Book :=
  { id := "zz", name := "Frankenstein", author := "Mary Shelley",
    isbn := "978-3-649-64609-9", pages := 280, year := 1818 }

/-! ### Helper lemmas -/

theorem hexDigitChar_hexDigitVal {c : Char} {n : Nat}
    (hl : isLowerHexDigit c = true) (hv : hexDigitVal c = some n) :
    hexDigitChar n = c := by
  have hl' := of_decide_eq_true hl
  have h0 : '0'.toNat = 48 := rfl
  have h9 : '9'.toNat = 57 := rfl
  have ha : 'a'.toNat = 97 := rfl
  have hf : 'f'.toNat = 102 := rfl
  rcases hl' with ⟨h1, h2⟩ | ⟨h1, h2⟩
  · rw [hexDigitVal, if_pos ⟨h1, h2⟩] at hv
    have hle : '0'.toNat ≤ c.toNat := h1
    have hub : c.toNat ≤ '9'.toNat := h2
    obtain rfl : c.toNat - '0'.toNat = n := Option.some_inj.mp hv
    have hn : c.toNat - '0'.toNat < 10 := by omega
    rw [hexDigitChar, if_pos hn]
    have he : '0'.toNat + (c.toNat - '0'.toNat) = c.toNat := by omega
    rw [he, Char.ofNat_toNat]
  · have hle : 'a'.toNat ≤ c.toNat := h1
    have hub : c.toNat ≤ 'f'.toNat := h2
    have hnot : ¬('0' ≤ c ∧ c ≤ '9') := by
      rintro ⟨-, hc⟩
      have : c.toNat ≤ '9'.toNat := hc
      omega
    rw [hexDigitVal, if_neg hnot, if_pos ⟨h1, h2⟩] at hv
    obtain rfl : c.toNat - 'a'.toNat + 10 = n := Option.some_inj.mp hv
    have hn : ¬ (c.toNat - 'a'.toNat + 10) < 10 := by omega
    rw [hexDigitChar, if_neg hn]
    have he : 'a'.toNat + (c.toNat - 'a'.toNat + 10 - 10) = c.toNat := by omega
    rw [he, Char.ofNat_toNat]

theorem hexDigitVals_roundtrip :
    ∀ (cs : List Char) (ns : List Nat),
      hexDigitVals cs = some ns → cs.all isLowerHexDigit = true →
      ns.map hexDigitChar = cs
  | [], ns, hm, _ => by
    simp only [hexDigitVals, Option.some_inj] at hm
    simp [← hm]
  | c :: cs, ns, hm, hall => by
    rw [hexDigitVals] at hm
    cases hv : hexDigitVal c with
    | none => simp [hv] at hm
    | some n =>
      cases hrest : hexDigitVals cs with
      | none => simp [hv, hrest] at hm
      | some ms =>
        simp only [hv, hrest, Option.some_inj] at hm
        subst hm
        simp only [List.all_cons, Bool.and_eq_true] at hall
        simp [hexDigitChar_hexDigitVal hall.1 hv,
          hexDigitVals_roundtrip cs ms hrest hall.2]

theorem objectIDHex_objectIDFromHex (s : String) (id : ObjectID)
    (h : objectIDFromHex s = some id) (hl : s.data.all isLowerHexDigit = true) :
    objectIDHex id = s := by
  rw [objectIDFromHex] at h
  split at h
  · rw [objectIDHex, hexDigitVals_roundtrip s.data id h hl]
  · exact absurd h (by simp)

theorem updateBook_eq_of_not_mem (coll : Store) (b : BookStore)
    (h : ∀ r ∈ coll, r.ID ≠ b.ID) : updateBook coll b = coll := by
  induction coll with
  | nil => rfl
  | cons r rest ih =>
    have hr := h r (List.mem_cons_self r rest)
    simp [updateBook, hr, ih fun x hx => h x (List.mem_cons_of_mem _ hx)]

theorem deleteBook_eq_of_not_mem (coll : Store) (id : ObjectID)
    (h : ∀ r ∈ coll, r.ID ≠ id) : deleteBook coll id = coll := by
  induction coll with
  | nil => rfl
  | cons r rest ih =>
    have hr := h r (List.mem_cons_self r rest)
    simp [deleteBook, hr, ih fun x hx => h x (List.mem_cons_of_mem _ hx)]

theorem updateBook_idem (coll : Store) (b : BookStore) :
    updateBook (updateBook coll b) b = updateBook coll b := by
  induction coll with
  | nil => rfl
  | cons r rest ih =>
    by_cases h : r.ID = b.ID
    · simp [updateBook, setFields, h]
    · simp [updateBook, h, ih]

theorem putBooks_store_idem (coll : Store) (book : Book) :
    (putBooks (putBooks coll book).1 book).1 = (putBooks coll book).1 := by
  by_cases h : checkIfDuplicateExists coll (convertToBookstore book) = true
  · simp [putBooks, h]
  · rw [Bool.not_eq_true] at h
    by_cases h2 : checkIfDuplicateExists (updateBook coll (convertToBookstore book))
        (convertToBookstore book) = true
    · simp [putBooks, h, h2]
    · rw [Bool.not_eq_true] at h2
      simp [putBooks, h, h2, updateBook_idem]

theorem convertToBookstore_ID_nil (book : Book)
    (hid : book.id = "" ∨ objectIDFromHex book.id = none) :
    (convertToBookstore book).ID = nilObjectID := by
  rcases hid with h | h
  · simp [convertToBookstore, h]
  · by_cases he : book.id = "" <;> simp [convertToBookstore, he, h]

/-! ### Claim theorems -/

/-- C3. For every request whose path is under `/api`, the router forwards
it to the pool dedicated to its HTTP method (GET to "get", POST to "post",
PUT to "put", DELETE to "delete"), and every request whose path is not
under `/api` is forwarded to the full ("backend") pool regardless of
method. -/
theorem nginxRoute_dispatch (path : String) :
    (underApi path = true →
      nginxRoute .GET path = some .get ∧ nginxRoute .POST path = some .post ∧
      nginxRoute .PUT path = some .put ∧ nginxRoute .DELETE path = some .delete) ∧
    (underApi path = false → ∀ m, nginxRoute m path = some .backend) := by
  constructor
  · intro h; simp [nginxRoute, h]
  · intro h m; simp [nginxRoute, h]

theorem nginxRoute_dispatch_witness :
    nginxRoute .GET "/api/books" = some .get ∧
    nginxRoute (.other "PATCH") "/" = some .backend :=
  ⟨((nginxRoute_dispatch "/api/books").1 (by decide)).1,
   (nginxRoute_dispatch "/").2 (by decide) (.other "PATCH")⟩

/-- C4. The Duplicate Guard returns true if and only if at least one stored
record matches all five descriptive fields (name, author, ISBN, pages,
year) exactly; by definition it is a single `FindOne` lookup with the
five-field equality filter. -/
theorem checkIfDuplicateExists_iff (coll : Store) (book : BookStore) :
    checkIfDuplicateExists coll book = true ↔
      ∃ r ∈ coll, r.BookName = book.BookName ∧ r.BookAuthor = book.BookAuthor ∧
        r.BookISBN = book.BookISBN ∧ r.BookPages = book.BookPages ∧
        r.BookYear = book.BookYear := by
  simp [checkIfDuplicateExists, List.find?_isSome, matchesFiveFields,
    Bool.and_eq_true, and_assoc]

/-- C6. Collection bootstrapping is idempotent — a `create` is issued
exactly when the collection name is missing from the listed names — and a
failure of the listing operation means the service never reaches the
serving state. -/
theorem prepareDatabase_bootstrap_spec (names : List String) (createOk : Bool)
    (collecName e : String) :
    (prepareDatabase (.ok names) createOk collecName).createIssuedB
        = !names.contains collecName ∧
    ∀ c, mainStartup (.error e) createOk collecName ≠ .started c := by
  constructor
  · by_cases h : collecName ∈ names <;> cases createOk <;>
      simp [prepareDatabase, PrepResult.createIssuedB, h]
  · intro c
    simp [mainStartup, prepareDatabase]

/-- C9. Update is idempotent on the identifier: applying `updateBook` twice
with the same record leaves the store as after one application, and the
same holds for the full PUT handler's effect on the store. -/
theorem updateBook_idempotent (coll : Store) (b : BookStore) (book : Book) :
    updateBook (updateBook coll b) b = updateBook coll b ∧
    (putBooks (putBooks coll book).1 book).1 = (putBooks coll book).1 :=
  ⟨updateBook_idem coll b, putBooks_store_idem coll book⟩

/-- C1 (counterexample). A POST body carrying a valid 24-character hex
identifier is NOT stripped of it: `convertToBookstore` decodes and keeps
it, the inserted document carries that client-derived `_id`, and the
reported `InsertedID` is the client's identifier, not the fresh
store-generated one. -/
theorem postBooks_client_id_carries_through :
    (convertToBookstore clientIdBook).ID ≠ nilObjectID ∧
    postBooks [] true (List.replicate 24 3) clientIdBook =
      ([convertToBookstore clientIdBook], 200,
        .idPayload (some (convertToBookstore clientIdBook).ID)) ∧
    (convertToBookstore clientIdBook).ID ≠ List.replicate 24 3 := by
  decide

/-- C1 (amended). When the wire identifier is empty or fails hex decoding,
the record handed to the insert carries the zero identifier (no
client-derived identifier) and a successful create inserts with, and
returns, the fresh store-generated identifier. -/
theorem postBooks_fresh_id_spec (coll : Store) (freshId : ObjectID)
    (book : Book)
    (hid : book.id = "" ∨ objectIDFromHex book.id = none)
    (hdup : checkIfDuplicateExists coll (convertToBookstore book) = false) :
    (convertToBookstore book).ID = nilObjectID ∧
    postBooks coll true freshId book =
      (coll ++ [{ convertToBookstore book with ID := freshId }], 200,
        .idPayload (some freshId)) := by
  have hID := convertToBookstore_ID_nil book hid
  refine ⟨hID, ?_⟩
  simp [postBooks, hdup, saveBook, insertOne, hID]

theorem postBooks_fresh_id_spec_witness :
    postBooks [] true (List.replicate 24 1) noIdBook =
      ([{ convertToBookstore noIdBook with ID := List.replicate 24 1 }], 200,
        .idPayload (some (List.replicate 24 1))) :=
  (postBooks_fresh_id_spec [] (List.replicate 24 1) noIdBook (Or.inl rfl)
    (by decide)).2

/-- C2 (counterexample). A POST whose five-field tuple matches no existing
record but whose store write fails inserts nothing, yet the response is
still 200 and carries no identifier — against the claim that exactly one
record is inserted and the 200 carries the generated identifier. -/
theorem postBooks_failed_write_inserts_nothing :
    checkIfDuplicateExists [] (convertToBookstore duneBook) = false ∧
    postBooks [] false (List.replicate 24 4) duneBook =
      ([], 200, .idPayload none) := by
  decide

/-- C2 (amended). A POST whose five-field tuple duplicates a stored record
is answered 304 with no insert; a POST whose tuple matches no stored
record and whose store write succeeds appends exactly one record and is
answered 200 with the inserted identifier. -/
theorem postBooks_duplicate_guard_spec (coll : Store) (writeOk : Bool)
    (freshId : ObjectID) (book : Book) :
    (checkIfDuplicateExists coll (convertToBookstore book) = true →
      postBooks coll writeOk freshId book =
        (coll, 304, .text "Duplicate not allowed")) ∧
    (checkIfDuplicateExists coll (convertToBookstore book) = false →
      ∃ insertedId,
        postBooks coll true freshId book =
          (coll ++ [{ convertToBookstore book with ID := insertedId }], 200,
            .idPayload (some insertedId))) := by
  constructor
  · intro h
    simp [postBooks, h]
  · intro h
    refine ⟨if (convertToBookstore book).ID = nilObjectID then freshId
            else (convertToBookstore book).ID, ?_⟩
    by_cases hz : (convertToBookstore book).ID = nilObjectID <;>
      simp [postBooks, h, saveBook, insertOne, hz]

theorem postBooks_duplicate_guard_spec_witness :
    postBooks [storedDune] true (List.replicate 24 9) duneBook =
      ([storedDune], 304, .text "Duplicate not allowed") ∧
    ∃ insertedId,
      postBooks [] true (List.replicate 24 9) duneBook =
        ([{ convertToBookstore duneBook with ID := insertedId }], 200,
          .idPayload (some insertedId)) := by
  refine ⟨(postBooks_duplicate_guard_spec [storedDune] true
      (List.replicate 24 9) duneBook).1 (by decide), ?_⟩
  have h := (postBooks_duplicate_guard_spec [] true
      (List.replicate 24 9) duneBook).2 (by decide)
  simpa using h

/-- C5 (counterexample). When the store write fails during an insert, the
POST handler still answers with the success status 200 (payload `null`),
not with a failure response. -/
theorem saveBook_write_failure_status_200 :
    saveBook [] false (List.replicate 24 5) (convertToBookstore blackCatBook)
        = ([], none) ∧
    (postBooks [] false (List.replicate 24 5) blackCatBook).2.1 = 200 := by
  decide

/-- C5 (amended). When the store write fails during an insert, `saveBook`
returns `nil` and leaves the store unchanged, and the POST handler
responds 200 with a `null` payload: the failure is visible only through
the payload, not through a non-success status. -/
theorem saveBook_write_failure_spec (coll : Store) (freshId : ObjectID)
    (book : Book)
    (hdup : checkIfDuplicateExists coll (convertToBookstore book) = false) :
    saveBook coll false freshId (convertToBookstore book) = (coll, none) ∧
    postBooks coll false freshId book = (coll, 200, .idPayload none) := by
  refine ⟨rfl, ?_⟩
  simp [postBooks, hdup, saveBook]

theorem saveBook_write_failure_spec_witness :
    postBooks [] false (List.replicate 24 5) blackCatBook =
      ([], 200, .idPayload none) :=
  (saveBook_write_failure_spec [] (List.replicate 24 5) blackCatBook
    (by decide)).2

/-- C7 (counterexample). A present wire identifier written in upper-case
hex decodes successfully, but hex decoding then re-encoding does not yield
the original identifier (`ObjectID.Hex` renders lower-case). -/
theorem roundtrip_uppercase_id_changes :
    (objectIDFromHex upperIdBook.id).isSome = true ∧
    (bookOfStored (convertToBookstore upperIdBook)).id ≠ upperIdBook.id := by
  decide

/-- C7 (amended). Converting a wire record to persisted form and back
preserves all five descriptive fields exactly; a decodable wire identifier
decodes to the identifier used internally, and re-encoding yields the
original identifier whenever its hex digits are lower-case. -/
theorem wire_roundtrip_spec (book : Book) :
    ((bookOfStored (convertToBookstore book)).name = book.name ∧
     (bookOfStored (convertToBookstore book)).author = book.author ∧
     (bookOfStored (convertToBookstore book)).isbn = book.isbn ∧
     (bookOfStored (convertToBookstore book)).pages = book.pages ∧
     (bookOfStored (convertToBookstore book)).year = book.year) ∧
    ∀ id, objectIDFromHex book.id = some id →
      (convertToBookstore book).ID = id ∧
      (book.id.data.all isLowerHexDigit = true →
        (bookOfStored (convertToBookstore book)).id = book.id) := by
  refine ⟨⟨rfl, rfl, rfl, rfl, rfl⟩, ?_⟩
  intro id h
  have hne : book.id ≠ "" := by
    intro he
    rw [he] at h
    simp [objectIDFromHex] at h
  have hID : (convertToBookstore book).ID = id := by
    simp [convertToBookstore, hne, h]
  refine ⟨hID, fun hl => ?_⟩
  show objectIDHex (convertToBookstore book).ID = book.id
  rw [hID]
  exact objectIDHex_objectIDFromHex book.id id h hl

theorem wire_roundtrip_spec_witness :
    (bookOfStored (convertToBookstore lowerIdBook)).name = lowerIdBook.name ∧
    (bookOfStored (convertToBookstore lowerIdBook)).id = lowerIdBook.id := by
  refine ⟨(wire_roundtrip_spec lowerIdBook).1.1, ?_⟩
  exact ((wire_roundtrip_spec lowerIdBook).2
    ([0, 1, 2, 3, 4, 5, 6, 7, 8, 9, 10, 11, 12, 13, 14, 15, 0, 1, 2, 3, 4, 5, 6, 7])
    (by decide)).2 (by decide)

/-- C8. A DELETE path identifier that fails to decode is replaced by the
zero identifier, which (in a store holding no zero-identifier record)
deletes nothing; deleting a non-existent identifier also leaves the store
unchanged; and the response is 200 with the confirmation string in every
case. -/
theorem deleteBooks_noop_spec (coll : Store) (idParam : String) (i : ObjectID)
    (hz : ∀ r ∈ coll, r.ID ≠ nilObjectID) :
    (objectIDFromHex idParam = none →
      deleteBooksId coll idParam = (coll, 200, .text "Succesfully deleted entry")) ∧
    ((objectIDFromHex idParam = some i ∧ ∀ r ∈ coll, r.ID ≠ i) →
      deleteBooksId coll idParam = (coll, 200, .text "Succesfully deleted entry")) ∧
    (deleteBooksId coll idParam).2 = (200, .text "Succesfully deleted entry") := by
  refine ⟨?_, ?_, ?_⟩
  · intro h
    simp [deleteBooksId, h, deleteBook_eq_of_not_mem coll nilObjectID hz]
  · rintro ⟨h, hni⟩
    simp [deleteBooksId, h, deleteBook_eq_of_not_mem coll i hni]
  · simp [deleteBooksId]

theorem deleteBooks_noop_spec_witness :
    deleteBooksId [storedFrank] "not-a-hex-id" =
      ([storedFrank], 200, .text "Succesfully deleted entry") ∧
    deleteBooksId [storedFrank] "222222222222222222222222" =
      ([storedFrank], 200, .text "Succesfully deleted entry") := by
  constructor
  · exact (deleteBooks_noop_spec [storedFrank] "not-a-hex-id" nilObjectID
      (by decide)).1 (by decide)
  · exact (deleteBooks_noop_spec [storedFrank] "222222222222222222222222"
      (List.replicate 24 2) (by decide)).2.1 ⟨by decide, by decide⟩

/-- C10. A PUT whose wire identifier is empty or fails hex decoding is not
rejected for that reason: the handler proceeds with the zero identifier
and still runs the Duplicate Guard on the new field values; when the guard
passes, the update matches no record (in a store holding no
zero-identifier record), the store is unchanged, and the response is 200
with the update confirmation string; when the guard fires, the store is
unchanged and the response is 201. -/
theorem putBooks_invalid_id_spec (coll : Store) (book : Book)
    (hid : book.id = "" ∨ objectIDFromHex book.id = none)
    (hz : ∀ r ∈ coll, r.ID ≠ nilObjectID) :
    (checkIfDuplicateExists coll (convertToBookstore book) = false →
      putBooks coll book = (coll, 200, .text "Updated the book")) ∧
    (checkIfDuplicateExists coll (convertToBookstore book) = true →
      putBooks coll book = (coll, 201, .text "Duplicate not allowed")) := by
  have hID := convertToBookstore_ID_nil book hid
  constructor
  · intro h
    have hnm : ∀ r ∈ coll, r.ID ≠ (convertToBookstore book).ID := by
      intro r hr
      rw [hID]
      exact hz r hr
    simp [putBooks, h, updateBook_eq_of_not_mem coll _ hnm]
  · intro h
    simp [putBooks, h]

theorem putBooks_invalid_id_spec_witness :
    putBooks [storedFrank] invalidIdNewBook =
      ([storedFrank], 200, .text "Updated the book") ∧
    putBooks [storedFrank] invalidIdDupBook =
      ([storedFrank], 201, .text "Duplicate not allowed") := by
  constructor
  · exact (putBooks_invalid_id_spec [storedFrank] invalidIdNewBook
      (Or.inr (by decide)) (by decide)).1 (by decide)
  · exact (putBooks_invalid_id_spec [storedFrank] invalidIdDupBook
      (Or.inr (by decide)) (by decide)).2 (by decide)

theorem checkIfDuplicateExists_iff_witness :
    checkIfDuplicateExists [storedFrank] storedFrank = true :=
  (checkIfDuplicateExists_iff [storedFrank] storedFrank).mpr
    ⟨storedFrank, by decide, rfl, rfl, rfl, rfl, rfl⟩

theorem prepareDatabase_bootstrap_spec_witness :
    (prepareDatabase (.ok ["information"]) true "information").createIssuedB
        = false ∧
    mainStartup (.error "store unreachable") true "information"
        ≠ .started "information" := by
  constructor
  · rw [(prepareDatabase_bootstrap_spec ["information"] true "information"
      "store unreachable").1]
    decide
  · exact (prepareDatabase_bootstrap_spec ["information"] true "information"
      "store unreachable").2 "information"

theorem updateBook_idempotent_witness :
    updateBook (updateBook [storedFrank] storedDune) storedDune =
      updateBook [storedFrank] storedDune :=
  (updateBook_idempotent [storedFrank] storedDune duneBook).1

end CloudExercise
